import Mathlib

/-
  Verification of the input-sanitization boundary of the secure-coding
  repository: the domain-lookup handlers (OS Command injection/views.py and
  OS Command injection/solution.py) and the photo-search handlers
  (SQLi/views.py), shallowly embedded as executable Lean definitions.
-/

namespace SecureCoding

/-- Python str.isspace test on a single character, restricted to the ASCII
whitespace characters that can appear in the request strings considered here. -/
def pyIsSpaceChar (c : Char) : Bool :=
  c == ' ' || c == '\t' || c == '\n' || c == '\r' || c == '\x0b' || c == '\x0c'

/-- Python str.isspace: true when the string is nonempty and every character
is whitespace. -/
def pyIsspace (s : String) : Bool :=
  !s.isEmpty && s.toList.all pyIsSpaceChar

/-- Substring test: needle occurs contiguously inside hay. -/
def strContains (hay needle : String) : Bool :=
  hay.toList.tails.any (fun t => needle.toList.isPrefixOf t)

/-- Character class of the restrictive domain-name grammar: alphanumeric
labels, dots and hyphens. -/
def domainChar (c : Char) : Bool :=
  c.isAlphanum || c == '.' || c == '-'

/-- A domain label is 1 to 63 characters long. -/
def validLabel (l : List Char) : Bool :=
  decide (1 ≤ l.length) && decide (l.length ≤ 63)

/-- Split a character list at every dot, keeping empty segments. -/
def splitOnDot : List Char → List (List Char)
  | [] => [[]]
  | '.' :: rest => [] :: splitOnDot rest
  | c :: rest =>
    match splitOnDot rest with
    | [] => [[c]]
    | l :: ls => (c :: l) :: ls

/-- Modelled from the spec: the domain validation of NameServerInfoForm lives
in nameserver/forms.py, which is not among the sources; the spec requires
acceptance exactly of strings matching the pattern of alphanumeric labels,
dots and hyphens, with total length 1 to 253 and valid label lengths, and
rejection of anything containing shell metacharacters or control bytes. -/
def validateDomain (s : String) : Bool :=
  decide (1 ≤ s.length) && decide (s.length ≤ 253)
    && s.toList.all domainChar && (splitOnDot s.toList).all validLabel

/-- A process-execution sink invocation: either an argument vector, as built by
Popen with a list, or a single shell command string, as built by popen3. -/
inductive ProcInvocation where
  | argv (args : List String)
  | shell (cmd : String)
  deriving Repr, DecidableEq

/-- Discriminator: the invocation is an argument-vector invocation. -/
def ProcInvocation.isArgv : ProcInvocation → Bool
  | ProcInvocation.argv _ => true
  | ProcInvocation.shell _ => false

/-- Result of a spawned process: captured stdout and the return code. -/
structure ProcResult where
  stdout : String
  returncode : Int
  deriving Repr, DecidableEq

/-- The rendered nameserver/index.html context: whether the form validated
(an invalid form carries its field errors into the page) and the output
variable passed to the template. -/
structure NsRender where
  formValid : Bool
  output : Option String
  deriving Repr, DecidableEq

/-- Trace of one POST to the domain-lookup view: the process invocations that
were spawned, and the rendered response. -/
structure NsOutcome where
  spawned : List ProcInvocation
  render : NsRender
  deriving Repr, DecidableEq

/-- OS Command injection/solution.py, index, POST branch: on a valid form the
handler runs Popen with the argument vector [nslookup, domain], reads stdout,
and replaces the output with a fixed message when the return code is nonzero;
on an invalid form nothing is spawned and output stays None.  The proc
argument models what the spawned process would return for a given domain. -/
def solutionIndexPost (proc : String → ProcResult) (domain_url : String) : NsOutcome :=
  if validateDomain domain_url then
    let r := proc domain_url
    { spawned := [ProcInvocation.argv ["nslookup", domain_url]],
      render := { formValid := true,
                  output := some (if r.returncode ≠ 0 then "Please enter valid domain." else r.stdout) } }
  else
    { spawned := [], render := { formValid := false, output := none } }

/-- OS Command injection/views.py, index, POST branch: on a valid form the
handler runs popen3 on the concatenated shell command string
nslookup followed by the domain, and reads its stdout; on an invalid form
nothing is spawned.  The shellRun argument models the stdout the shell
command would produce. -/
def viewsIndexPost (shellRun : String → String) (domain_url : String) : NsOutcome :=
  if validateDomain domain_url then
    { spawned := [ProcInvocation.shell ("nslookup " ++ domain_url)],
      render := { formValid := true,
                  output := some (shellRun ("nslookup " ++ domain_url)) } }
  else
    { spawned := [], render := { formValid := false, output := none } }

/-- A row of the albums_photo table, with the fields the handlers read.
Timestamps are seconds since the epoch. -/
structure Photo where
  id : Nat
  name : String
  description : String
  uploadUrl : String
  ownerUsername : String
  isPublic : Bool
  uploadedAt : Nat
  deriving Repr, DecidableEq

/-- Lower-case a string character by character. -/
def lowerStr (s : String) : String :=
  String.mk (s.toList.map Char.toLower)

/-- Django icontains lookup: case-insensitive substring test. -/
def icontains (hay needle : String) : Bool :=
  strContains (lowerStr hay) (lowerStr needle)

/-- SQL token of the raw search query issued by SearchPhotosFormView. -/
inductive Tok where
  | ident (s : String)
  | strLit (s : String)
  | num (n : Nat)
  | star
  | eqTok
  | likeTok
  | andTok
  | orTok
  | selectTok
  | fromTok
  | whereTok
  deriving Repr, DecidableEq

/-- Characters that may continue an SQL identifier. -/
def isIdentChar (c : Char) : Bool :=
  c.isAlphanum || c == '_'

/-- Classify a scanned word as keyword or identifier. -/
def keywordTok (s : String) : Tok :=
  if s = "SELECT" then Tok.selectTok
  else if s = "FROM" then Tok.fromTok
  else if s = "WHERE" then Tok.whereTok
  else if s = "LIKE" then Tok.likeTok
  else if s = "AND" then Tok.andTok
  else if s = "OR" then Tok.orTok
  else Tok.ident s

/-- Decimal digits to a natural number. -/
def digitsToNat (ds : List Char) : Nat :=
  ds.foldl (fun a c => a * 10 + (c.toNat - 48)) 0

/-- Tokenize an SQL string: whitespace, star, equals, double-quoted string
literals, numbers and identifiers or keywords.  The fuel argument bounds the
recursion; one unit per scanned token or space suffices. -/
def tokenize : Nat → List Char → Option (List Tok)
  | _, [] => some []
  | 0, _ => none
  | fuel + 1, c :: cs =>
    if c == ' ' then tokenize fuel cs
    else if c == '*' then (tokenize fuel cs).map (fun ts => Tok.star :: ts)
    else if c == '=' then (tokenize fuel cs).map (fun ts => Tok.eqTok :: ts)
    else if c == '"' then
      match cs.span (fun d => d != '"') with
      | (lit, rest) =>
        match rest with
        | [] => none
        | _ :: rest2 => (tokenize fuel rest2).map (fun ts => Tok.strLit (String.mk lit) :: ts)
    else if c.isDigit then
      match (c :: cs).span Char.isDigit with
      | (ds, rest) => (tokenize fuel rest).map (fun ts => Tok.num (digitsToNat ds) :: ts)
    else if c.isAlpha || c == '_' then
      match (c :: cs).span isIdentChar with
      | (w, rest) => (tokenize fuel rest).map (fun ts => keywordTok (String.mk w) :: ts)
    else none

/-- An SQL operand: a column reference, a string literal or a number. -/
inductive SqlVal where
  | col (s : String)
  | lit (s : String)
  | nat (n : Nat)
  deriving Repr, DecidableEq

/-- An SQL WHERE expression over comparisons, with AND binding tighter
than OR. -/
inductive SqlExpr where
  | cmpEq (a b : SqlVal)
  | cmpLike (a b : SqlVal)
  | conj (a b : SqlExpr)
  | disj (a b : SqlExpr)
  deriving Repr, DecidableEq

/-- Parse one operand. -/
def parseVal : List Tok → Option (SqlVal × List Tok)
  | Tok.ident s :: r => some (SqlVal.col s, r)
  | Tok.strLit s :: r => some (SqlVal.lit s, r)
  | Tok.num n :: r => some (SqlVal.nat n, r)
  | _ => none

/-- Parse one comparison: operand, then = or LIKE, then operand. -/
def parseCmp (ts : List Tok) : Option (SqlExpr × List Tok) :=
  match parseVal ts with
  | none => none
  | some (a, r) =>
    match r with
    | Tok.eqTok :: r2 =>
      match parseVal r2 with
      | some (b, r3) => some (SqlExpr.cmpEq a b, r3)
      | none => none
    | Tok.likeTok :: r2 =>
      match parseVal r2 with
      | some (b, r3) => some (SqlExpr.cmpLike a b, r3)
      | none => none
    | _ => none

/-- Fold further AND-connected comparisons onto an accumulator. -/
def parseAndRest : Nat → SqlExpr → List Tok → Option (SqlExpr × List Tok)
  | 0, _, _ => none
  | fuel + 1, acc, Tok.andTok :: r =>
    match parseCmp r with
    | some (c, r2) => parseAndRest fuel (SqlExpr.conj acc c) r2
    | none => none
  | _ + 1, acc, ts => some (acc, ts)

/-- Parse a conjunction of comparisons. -/
def parseAnd (fuel : Nat) (ts : List Tok) : Option (SqlExpr × List Tok) :=
  match parseCmp ts with
  | some (c, r) => parseAndRest fuel c r
  | none => none

/-- Fold further OR-connected conjunctions onto an accumulator. -/
def parseOrRest : Nat → SqlExpr → List Tok → Option (SqlExpr × List Tok)
  | 0, _, _ => none
  | fuel + 1, acc, Tok.orTok :: r =>
    match parseAnd (fuel + 1) r with
    | some (c, r2) => parseOrRest fuel (SqlExpr.disj acc c) r2
    | none => none
  | _ + 1, acc, ts => some (acc, ts)

/-- Parse a disjunction of conjunctions of comparisons. -/
def parseOr (fuel : Nat) (ts : List Tok) : Option (SqlExpr × List Tok) :=
  match parseAnd fuel ts with
  | some (c, r) => parseOrRest fuel c r
  | none => none

/-- Parse a complete WHERE clause, consuming all tokens. -/
def parseWhereClause (ts : List Tok) : Option SqlExpr :=
  match parseOr (ts.length + 1) ts with
  | some (e, []) => some e
  | _ => none

/-- Parse a SELECT star FROM albums_photo WHERE query. -/
def parseSelectQuery (sql : String) : Option SqlExpr :=
  match tokenize (sql.length + 1) sql.toList with
  | some (Tok.selectTok :: Tok.star :: Tok.fromTok :: Tok.ident t :: Tok.whereTok :: rest) =>
    if t = "albums_photo" then parseWhereClause rest else none
  | _ => none

/-- SQL LIKE matching with percent wildcards, fuel bounded. -/
def likeMatchFuel : Nat → List Char → List Char → Bool
  | 0, _, _ => false
  | _ + 1, [], s => s.isEmpty
  | fuel + 1, '%' :: ps, [] => likeMatchFuel fuel ps []
  | fuel + 1, '%' :: ps, c :: s =>
    likeMatchFuel fuel ps (c :: s) || likeMatchFuel fuel ('%' :: ps) s
  | _ + 1, _ :: _, [] => false
  | fuel + 1, p :: ps, c :: s => (p == c) && likeMatchFuel fuel ps s

/-- SQL LIKE on strings. -/
def sqlLike (s patt : String) : Bool :=
  likeMatchFuel (patt.length + s.length + 1) patt.toList s.toList

/-- An SQL scalar runtime value. -/
inductive SqlScalar where
  | s (v : String)
  | n (v : Nat)
  deriving Repr, DecidableEq

/-- Evaluate an operand against one albums_photo row. -/
def evalVal (ph : Photo) : SqlVal → Option SqlScalar
  | SqlVal.col c =>
    if c = "name" then some (SqlScalar.s ph.name)
    else if c = "description" then some (SqlScalar.s ph.description)
    else if c = "id" then some (SqlScalar.n ph.id)
    else if c = "is_public" then some (SqlScalar.n (if ph.isPublic then 1 else 0))
    else none
  | SqlVal.lit s => some (SqlScalar.s s)
  | SqlVal.nat n => some (SqlScalar.n n)

/-- Evaluate a WHERE expression against one albums_photo row. -/
def evalSqlExpr (ph : Photo) : SqlExpr → Option Bool
  | SqlExpr.cmpEq a b =>
    match evalVal ph a, evalVal ph b with
    | some (SqlScalar.s x), some (SqlScalar.s y) => some (x == y)
    | some (SqlScalar.n x), some (SqlScalar.n y) => some (x == y)
    | _, _ => none
  | SqlExpr.cmpLike a b =>
    match evalVal ph a, evalVal ph b with
    | some (SqlScalar.s x), some (SqlScalar.s y) => some (sqlLike x y)
    | _, _ => none
  | SqlExpr.conj a b =>
    match evalSqlExpr ph a, evalSqlExpr ph b with
    | some x, some y => some (x && y)
    | _, _ => none
  | SqlExpr.disj a b =>
    match evalSqlExpr ph a, evalSqlExpr ph b with
    | some x, some y => some (x || y)
    | _, _ => none

/-- A single ORM filter condition, as built from the Q objects and keyword
lookups of SQLi/views.py. -/
inductive Cond where
  | nameIcontains (t : String)
  | descriptionIcontains (t : String)
  | uploadedAtGt (p : Nat)
  | isPublicEq (b : Bool)
  deriving Repr, DecidableEq

/-- Evaluate one ORM condition against a row: the term is compared as data. -/
def evalCond (ph : Photo) : Cond → Bool
  | Cond.nameIcontains t => icontains ph.name t
  | Cond.descriptionIcontains t => icontains ph.description t
  | Cond.uploadedAtGt p => decide (p < ph.uploadedAt)
  | Cond.isPublicEq b => ph.isPublic == b

/-- A request sent to the storage layer: either a raw SQL string, as issued by
Photo.objects.raw, or a structured conjunction of ORM filter conditions, as
issued by Photo.objects.filter. -/
inductive StorageRequest where
  | rawSQL (sql : String)
  | ormFilter (conds : List Cond)
  deriving Repr, DecidableEq

/-- Discriminator: the request is a structured ORM filter. -/
def StorageRequest.isOrmFilter : StorageRequest → Bool
  | StorageRequest.rawSQL _ => false
  | StorageRequest.ormFilter _ => true

/-- Execute a storage request against the albums_photo table: raw SQL is
parsed and its WHERE clause evaluated per row (none on a query the database
rejects); an ORM filter keeps the rows satisfying every condition. -/
def runStorage (db : List Photo) : StorageRequest → Option (List Photo)
  | StorageRequest.rawSQL sql =>
    match parseSelectQuery sql with
    | some e => some (db.filter (fun ph => (evalSqlExpr ph e).getD false))
    | none => none
  | StorageRequest.ormFilter conds =>
    some (db.filter (fun ph => conds.all (evalCond ph)))

/-- The raw SQL string built by SearchPhotosFormView via percent formatting of
the template SELECT star FROM albums_photo WHERE name LIKE percent-s AND
is_public equals one, with the search term spliced in unescaped. -/
def buildRawSearchSQL (query : String) : String :=
  "SELECT * FROM albums_photo WHERE name LIKE \"%" ++ query ++ "%\" AND is_public = 1"

/-- SearchPhotosFormView.get_context_data: the storage request issued for a
given optional q parameter; none when the parameter is absent, empty, or all
whitespace. -/
def searchPhotosRequest (q : Option String) : Option StorageRequest :=
  match q with
  | some s =>
    if !s.isEmpty && !pyIsspace s then some (StorageRequest.rawSQL (buildRawSearchSQL s))
    else none
  | none => none

/-- SearchPhotosFormView.get_context_data: the photos placed in the rendering
context; some of the rows when the storage layer accepts the query, none when
it rejects it. -/
def searchPhotosView (db : List Photo) (q : Option String) : Option (List Photo) :=
  match searchPhotosRequest q with
  | some r => runStorage db r
  | none => some []

/-- The GET parameters read by AdvancedSearchPhotosFormView. -/
structure AdvParams where
  name : Option String
  description : Option String
  uploaded_at : Option String
  deriving Repr, DecidableEq

/-- AdvancedSearchPhotosFormView.get_upload_period: the cutoff instant for the
three recognised period names, none otherwise; now is the current time in
seconds. -/
def get_upload_period (now : Nat) (uploaded_at : String) : Option Nat :=
  if uploaded_at = "hours" then some (now - 24 * 3600)
  else if uploaded_at = "week" then some (now - 7 * 86400)
  else if uploaded_at = "month" then some (now - 30 * 86400)
  else none

/-- AdvancedSearchPhotosFormView.get_context_data: the conjunction of Q
conditions accumulated from the present, nonempty, non-whitespace parameters. -/
def advancedSearchConds (now : Nat) (p : AdvParams) : List Cond :=
  let q1 : List Cond :=
    match p.name with
    | some n => if !n.isEmpty && !pyIsspace n then [Cond.nameIcontains n] else []
    | none => []
  let q2 : List Cond :=
    match p.description with
    | some d => if !d.isEmpty && !pyIsspace d then [Cond.descriptionIcontains d] else []
    | none => []
  let q3 : List Cond :=
    match p.uploaded_at with
    | some u =>
      if !u.isEmpty && !pyIsspace u then
        match get_upload_period now u with
        | some per => [Cond.uploadedAtGt per]
        | none => []
      else []
    | none => []
  q1 ++ q2 ++ q3

/-- AdvancedSearchPhotosFormView.get_context_data: the storage request issued;
none when the accumulated Q object is empty (falsy), otherwise the ORM filter
of the accumulated conditions conjoined with is_public equals true. -/
def advancedSearchRequest (now : Nat) (p : AdvParams) : Option StorageRequest :=
  match advancedSearchConds now p with
  | [] => none
  | c :: cs => some (StorageRequest.ormFilter ((c :: cs) ++ [Cond.isPublicEq true]))

/-- AdvancedSearchPhotosFormView.get_context_data: the photos placed in the
rendering context. -/
def advancedSearchView (db : List Photo) (now : Nat) (p : AdvParams) : List Photo :=
  match advancedSearchRequest now p with
  | some r => (runStorage db r).getD []
  | none => []

/-- A Python exception as observed by the handlers: ValueError covers
ParseError and the defusedxml forbidden-construct errors, yamlError covers
the YAMLError subclasses raised by the YAML loader. -/
inductive PyExc where
  | valueError (m : String)
  | attributeError (m : String)
  | yamlError (m : String)
  deriving Repr, DecidableEq

/-- The message carried by an exception. -/
def excMsg : PyExc → String
  | PyExc.valueError m => m
  | PyExc.attributeError m => m
  | PyExc.yamlError m => m

/-- The configuration of the DefusedXMLParser built in
XMLSearchPhotosAPIView.post. -/
structure DefusedConfig where
  forbid_dtd : Bool
  forbid_entities : Bool
  forbid_external : Bool
  deriving Repr, DecidableEq

/-- The parser configuration the XML handler constructs: all three
protections enabled. -/
def xmlParserConfig : DefusedConfig :=
  { forbid_dtd := true, forbid_entities := true, forbid_external := true }

/-- An XML request body, abstracted to the features the parse inspects: the
declarations it carries, well-formedness, how many entity expansions a full
parse would perform, and the query element with its text. -/
structure XmlPayload where
  hasDoctype : Bool
  hasEntityDecl : Bool
  hasExternalRef : Bool
  wellFormed : Bool
  entityUses : Nat
  hasQueryElem : Bool
  queryText : Option String
  deriving Repr, DecidableEq

/-- Modelled from the defusedxml library (an external collaborator of the
handler): parsing with a DefusedXMLParser raises DTDForbidden on a DOCTYPE,
EntitiesForbidden on an ENTITY declaration and ExternalReferenceForbidden on
an external reference when the corresponding flag is set, each a ValueError
subclass raised before any entity expansion, and ParseError on malformed
input.  The pair returned is the parse outcome together with the number of
entity expansions performed. -/
def defusedParse (cfg : DefusedConfig) (doc : XmlPayload) :
    (Except PyExc XmlPayload) × Nat :=
  if cfg.forbid_dtd && doc.hasDoctype then
    (Except.error (PyExc.valueError "DTDForbidden"), 0)
  else if cfg.forbid_entities && doc.hasEntityDecl then
    (Except.error (PyExc.valueError "EntitiesForbidden"), 0)
  else if cfg.forbid_external && doc.hasExternalRef then
    (Except.error (PyExc.valueError "ExternalReferenceForbidden"), 0)
  else if !doc.wellFormed then
    (Except.error (PyExc.valueError "ParseError"), 0)
  else
    (Except.ok doc, doc.entityUses)

/-- One photo dictionary of the JSON photos array built by the API handlers. -/
structure PhotoJson where
  id : Nat
  name : String
  description : String
  upload : String
  owner : String
  deriving Repr, DecidableEq

/-- The dictionary the handlers build from one Photo row. -/
def photoToJson (ph : Photo) : PhotoJson :=
  { id := ph.id, name := ph.name, description := ph.description,
    upload := ph.uploadUrl, owner := ph.ownerUsername }

/-- The body of a JsonResponse produced by the two API handlers: a photos
array or an error message. -/
inductive JsonBody where
  | photos (l : List PhotoJson)
  | error (msg : String)
  deriving Repr, DecidableEq

/-- A JsonResponse: HTTP status and body. -/
structure JsonResp where
  status : Nat
  body : JsonBody
  deriving Repr, DecidableEq

/-- What a POST to an API handler produces: a returned JsonResponse, or an
exception that escapes the handler uncaught. -/
inductive HandlerOutcome where
  | resp (r : JsonResp)
  | uncaught (e : PyExc)
  deriving Repr, DecidableEq

/-- Discriminator: the outcome is a returned JsonResponse. -/
def HandlerOutcome.isJsonResp : HandlerOutcome → Bool
  | HandlerOutcome.resp _ => true
  | HandlerOutcome.uncaught _ => false

/-- Trace of one POST to an API handler: its outcome, the entity expansions
performed while parsing, and the storage requests issued. -/
structure ApiTrace where
  outcome : HandlerOutcome
  expansions : Nat
  queries : List StorageRequest
  deriving Repr, DecidableEq

/-- The photos array built by both API handlers: rows matching
name icontains query and is_public true, sliced to the first 100, rendered
as dictionaries. -/
def photoSearchResults (db : List Photo) (query : String) : List PhotoJson :=
  ((db.filter (fun ph => icontains ph.name query && ph.isPublic)).take 100).map photoToJson

/-- The storage request both API handlers issue on a usable query string. -/
def apiSearchRequest (query : String) : StorageRequest :=
  StorageRequest.ormFilter [Cond.nameIcontains query, Cond.isPublicEq true]

/-- XMLSearchPhotosAPIView.post: parse with the fully protected parser; any
ParseError or ValueError yields a 400 error response prefixed XML parse, any
other exception inside the try block, such as the AttributeError from a
missing query element, yields a 400 error response with the raw message; a
usable query text issues the ORM filter and returns the photos array. -/
def xmlSearchPost (db : List Photo) (doc : XmlPayload) : ApiTrace :=
  match defusedParse xmlParserConfig doc with
  | (Except.error (PyExc.valueError m), n) =>
    { outcome := HandlerOutcome.resp { status := 400, body := JsonBody.error ("XML parse - " ++ m) },
      expansions := n, queries := [] }
  | (Except.error e, n) =>
    { outcome := HandlerOutcome.resp { status := 400, body := JsonBody.error (excMsg e) },
      expansions := n, queries := [] }
  | (Except.ok content, n) =>
    if content.hasQueryElem then
      match content.queryText with
      | some s =>
        if !s.isEmpty && !pyIsspace s then
          { outcome := HandlerOutcome.resp { status := 200, body := JsonBody.photos (photoSearchResults db s) },
            expansions := n, queries := [apiSearchRequest s] }
        else
          { outcome := HandlerOutcome.resp { status := 200, body := JsonBody.photos [] },
            expansions := n, queries := [] }
      | none =>
        { outcome := HandlerOutcome.resp { status := 200, body := JsonBody.photos [] },
          expansions := n, queries := [] }
    else
      { outcome := HandlerOutcome.resp { status := 400, body := JsonBody.error "NoneType object has no attribute text" },
        expansions := n, queries := [] }

/-- A YAML node as constructed by the safe loader. -/
inductive YamlVal where
  | str (s : String)
  | int (n : Int)
  | bool (b : Bool)
  | null
  | list (l : List YamlVal)
  | map (m : List (String × YamlVal))

/-- A YAML request body, abstracted to what the loader inspects: malformed
text, a document carrying a type-constructor tag over some content, or a
plain document. -/
inductive YamlPayload where
  | malformed
  | tagged (tag : String) (v : YamlVal)
  | plain (v : YamlVal)

/-- Modelled from the PyYAML library (an external collaborator of the
handler): yaml.safe_load raises a ScannerError on malformed input and a
ConstructorError on a document carrying a type-constructor tag, both
YAMLError subclasses; the safe loader refuses to construct arbitrary objects,
so the content under a tag is returned nowhere and nothing of it is
executed.  A plain document is returned as its node. -/
def safe_load : YamlPayload → Except PyExc YamlVal
  | YamlPayload.malformed => Except.error (PyExc.yamlError "ScannerError")
  | YamlPayload.tagged tag _ =>
    Except.error (PyExc.yamlError ("ConstructorError: could not determine a constructor for the tag " ++ tag))
  | YamlPayload.plain v => Except.ok v

/-- Association-list lookup used for the dictionary get of the handler. -/
def yamlLookup (m : List (String × YamlVal)) (k : String) : Option YamlVal :=
  match m with
  | [] => none
  | (k2, v) :: rest => if k2 = k then some v else yamlLookup rest k

/-- The dictionary get call of the handler: only a mapping has a get
attribute; every other node raises AttributeError. -/
def yamlGet (v : YamlVal) (k : String) : Except PyExc (Option YamlVal) :=
  match v with
  | YamlVal.map m => Except.ok (yamlLookup m k)
  | _ => Except.error (PyExc.attributeError "object has no attribute get")

/-- Python truthiness of a YAML node. -/
def yamlTruthy : YamlVal → Bool
  | YamlVal.str s => !s.isEmpty
  | YamlVal.int n => n != 0
  | YamlVal.bool b => b
  | YamlVal.null => false
  | YamlVal.list l => !l.isEmpty
  | YamlVal.map m => !m.isEmpty

/-- YAMLSearchPhotosAPIView.post: safe_load the body and get the query key;
only AttributeError is caught, as a 400 error response; YAMLError escapes the
handler uncaught; a truthy non-string query value escapes as an uncaught
AttributeError when isspace is called on it; a usable query string issues the
ORM filter and returns the photos array. -/
def yamlSearchPost (db : List Photo) (p : YamlPayload) : ApiTrace :=
  match safe_load p with
  | Except.error e =>
    { outcome := HandlerOutcome.uncaught e, expansions := 0, queries := [] }
  | Except.ok v =>
    match yamlGet v "query" with
    | Except.error (PyExc.attributeError m) =>
      { outcome := HandlerOutcome.resp { status := 400, body := JsonBody.error m },
        expansions := 0, queries := [] }
    | Except.error e =>
      { outcome := HandlerOutcome.uncaught e, expansions := 0, queries := [] }
    | Except.ok none =>
      { outcome := HandlerOutcome.resp { status := 200, body := JsonBody.photos [] },
        expansions := 0, queries := [] }
    | Except.ok (some q) =>
      if yamlTruthy q then
        match q with
        | YamlVal.str s =>
          if pyIsspace s then
            { outcome := HandlerOutcome.resp { status := 200, body := JsonBody.photos [] },
              expansions := 0, queries := [] }
          else
            { outcome := HandlerOutcome.resp { status := 200, body := JsonBody.photos (photoSearchResults db s) },
              expansions := 0, queries := [apiSearchRequest s] }
        | _ =>
          { outcome := HandlerOutcome.uncaught (PyExc.attributeError "object has no attribute isspace"),
            expansions := 0, queries := [] }
      else
        { outcome := HandlerOutcome.resp { status := 200, body := JsonBody.photos [] },
          expansions := 0, queries := [] }

/-- The condition under which an optional request string is usable by the
handlers: present, nonempty, and not all whitespace. -/
def blankQuery (q : Option String) : Prop :=
  q = none ∨ q = some "" ∨ ∃ s, q = some s ∧ pyIsspace s = true

/-- A photos body is sound for a table when it lists at most 100 entries, each
rendered from a public row of the table. -/
def photosBodyOk (db : List Photo) : JsonBody → Prop
  | JsonBody.photos l =>
    l.length ≤ 100 ∧ ∀ pj ∈ l, ∃ ph ∈ db, ph.isPublic = true ∧ photoToJson ph = pj
  | JsonBody.error _ => True

/-- The injection probe from the spec: x quote OR quote 1 quote equals quote 1. -/
def injTerm : String := "x\" OR \"1\"=\"1"

/-- A non-public photo named x, used to exhibit the altered query semantics. -/
def injPhoto : Photo :=
  { id := 1, name := "x", description := "", uploadUrl := "/u/x",
    ownerUsername := "eve", isPublic := false, uploadedAt := 0 }

/-- A public photo named cat photo, used as a concrete table row. -/
def pubPhoto : Photo :=
  { id := 2, name := "cat photo", description := "d", uploadUrl := "/u/c",
    ownerUsername := "alice", isPublic := true, uploadedAt := 10 }

/-- A concrete two-row albums_photo table. -/
def demoDb : List Photo := [pubPhoto, injPhoto]

/-- An XML payload carrying a DOCTYPE with an ENTITY declaration. -/
def xxeDoc : XmlPayload :=
  { hasDoctype := true, hasEntityDecl := true, hasExternalRef := false,
    wellFormed := true, entityUses := 5, hasQueryElem := true, queryText := some "q" }

/-- A benign well-formed XML payload whose query element holds cat. -/
def plainXmlDoc : XmlPayload :=
  { hasDoctype := false, hasEntityDecl := false, hasExternalRef := false,
    wellFormed := true, entityUses := 0, hasQueryElem := true, queryText := some "cat" }

/-- A benign well-formed XML payload whose query element holds one space. -/
def blankXmlDoc : XmlPayload :=
  { hasDoctype := false, hasEntityDecl := false, hasExternalRef := false,
    wellFormed := true, entityUses := 0, hasQueryElem := true, queryText := some " " }

/-- A benign YAML mapping whose query key holds cat. -/
def plainYamlDoc : YamlPayload :=
  YamlPayload.plain (YamlVal.map [("query", YamlVal.str "cat")])

/- ------------------------------------------------------------------ -/
/- Theorems                                                            -/
/- ------------------------------------------------------------------ -/

/-- Helper: every character of a contained substring is a character of the
containing string. -/
theorem strContains_mem {s t : String} (h : strContains s t = true) {c : Char}
    (hc : c ∈ t.toList) : c ∈ s.toList := by
  unfold strContains at h
  rw [List.any_eq_true] at h
  obtain ⟨tl, htl, hpre⟩ := h
  rw [List.mem_tails] at htl
  rw [List.isPrefixOf_iff_prefix] at hpre
  exact htl.subset (hpre.subset hc)

/-- Helper: a whitespace character is outside the domain grammar. -/
theorem pySpace_not_domainChar {c : Char} (h : pyIsSpaceChar c = true) :
    domainChar c = false := by
  simp only [pyIsSpaceChar, Bool.or_eq_true, beq_iff_eq] at h
  rcases h with ((((h | h) | h) | h) | h) | h <;> subst h <;> decide

/-- Helper: a character outside the domain grammar forces rejection of the
whole string. -/
theorem validateDomain_false_of_badchar {s : String} {c : Char}
    (hc : c ∈ s.toList) (hdc : domainChar c = false) : validateDomain s = false := by
  cases h : validateDomain s
  · rfl
  · exfalso
    unfold validateDomain at h
    simp only [Bool.and_eq_true, List.all_eq_true] at h
    have hone := h.1.2 c hc
    rw [hdc] at hone
    exact Bool.false_ne_true hone

/-- C1 counterexample: for the injection term submitted to
SearchPhotosFormView, the handler issues a raw SQL request, not an ORM
filter; the term is formatted verbatim into the query string; and the issued
query returns a photo that is not public and whose name does not contain the
term, so the term altered the semantics of the issued query. -/
theorem C1_counterexample :
    searchPhotosRequest (some injTerm)
      = some (StorageRequest.rawSQL (buildRawSearchSQL injTerm))
    ∧ (StorageRequest.rawSQL (buildRawSearchSQL injTerm)).isOrmFilter = false
    ∧ strContains (buildRawSearchSQL injTerm) injTerm = true
    ∧ runStorage [injPhoto] (StorageRequest.rawSQL (buildRawSearchSQL injTerm))
      = some [injPhoto]
    ∧ injPhoto.isPublic = false
    ∧ icontains injPhoto.name injTerm = false := by
  refine ⟨rfl, rfl, by decide, by decide, rfl, by decide⟩

/-- C1 amended: in the advanced search view the term is passed to the storage
layer as a structured ORM filter condition, never formatted into a query
string, and for every term, including ones containing percent signs, double
quotes or SQL keywords, the issued query returns exactly the public photos
whose name contains the term as data. -/
theorem C1_theorem (now : Nat) (term : String) (db : List Photo)
    (h1 : term.isEmpty = false) (h2 : pyIsspace term = false) :
    advancedSearchRequest now { name := some term, description := none, uploaded_at := none }
      = some (StorageRequest.ormFilter [Cond.nameIcontains term, Cond.isPublicEq true])
    ∧ advancedSearchView db now { name := some term, description := none, uploaded_at := none }
      = db.filter (fun ph => icontains ph.name term && ph.isPublic) := by
  have hc : advancedSearchConds now { name := some term, description := none, uploaded_at := none }
      = [Cond.nameIcontains term] := by
    simp [advancedSearchConds, h1, h2]
  refine ⟨by simp [advancedSearchRequest, hc], ?_⟩
  simp only [advancedSearchView, advancedSearchRequest, hc, runStorage, Option.getD_some]
  apply List.filter_congr
  intro ph _
  simp [evalCond]

/-- C1 witness: the amended statement instantiated at the injection term. -/
theorem C1_theorem_witness :
    advancedSearchRequest 0 { name := some injTerm, description := none, uploaded_at := none }
      = some (StorageRequest.ormFilter [Cond.nameIcontains injTerm, Cond.isPublicEq true])
    ∧ advancedSearchView [injPhoto] 0 { name := some injTerm, description := none, uploaded_at := none }
      = [injPhoto].filter (fun ph => icontains ph.name injTerm && ph.isPublic) :=
  C1_theorem 0 injTerm [injPhoto] (by decide) (by decide)

/-- C2 counterexample: the domain 8.8.8.8 passes validation, yet the views.py
variant invokes the process sink with a concatenated shell command string,
not with the domain as an argument-vector element. -/
theorem C2_counterexample :
    validateDomain "8.8.8.8" = true
    ∧ (viewsIndexPost (fun _ => "dns answer") "8.8.8.8").spawned
      = [ProcInvocation.shell ("nslookup " ++ "8.8.8.8")]
    ∧ (viewsIndexPost (fun _ => "dns answer") "8.8.8.8").spawned.all ProcInvocation.isArgv
      = false := by
  refine ⟨by decide, by decide, by decide⟩

/-- C2 amended: in the solution.py variant, every domain accepted by
validation reaches the process sink as a single element of the argument
vector nslookup, domain, and every spawned invocation is an argument-vector
invocation. -/
theorem C2_theorem (proc : String → ProcResult) (d : String)
    (h : validateDomain d = true) :
    (solutionIndexPost proc d).spawned = [ProcInvocation.argv ["nslookup", d]]
    ∧ (solutionIndexPost proc d).spawned.all ProcInvocation.isArgv = true := by
  simp [solutionIndexPost, h, ProcInvocation.isArgv]

/-- C2 witness: the amended statement at the domain 8.8.8.8. -/
theorem C2_theorem_witness :
    (solutionIndexPost (fun _ => { stdout := "ok", returncode := 0 }) "8.8.8.8").spawned
      = [ProcInvocation.argv ["nslookup", "8.8.8.8"]]
    ∧ (solutionIndexPost (fun _ => { stdout := "ok", returncode := 0 }) "8.8.8.8").spawned.all
        ProcInvocation.isArgv = true :=
  C2_theorem (fun _ => { stdout := "ok", returncode := 0 }) "8.8.8.8" (by decide)

/-- C8: in the argument-vector variant, whenever the spawned nslookup process
exits with a nonzero return code, the rendered output is the fixed message
Please enter valid domain, not the stdout of the process. -/
theorem C8_theorem (proc : String → ProcResult) (d : String)
    (hv : validateDomain d = true) (hrc : (proc d).returncode ≠ 0) :
    (solutionIndexPost proc d).render.output = some "Please enter valid domain." := by
  simp [solutionIndexPost, hv, hrc]

/-- C8 witness: a failing lookup of 8.8.8.8 with return code one. -/
theorem C8_theorem_witness :
    (solutionIndexPost (fun _ => { stdout := "server failure", returncode := 1 }) "8.8.8.8").render.output
      = some "Please enter valid domain." :=
  C8_theorem (fun _ => { stdout := "server failure", returncode := 1 }) "8.8.8.8"
    (by decide) (by decide)

/-- C3: every POSTed domain containing a semicolon, a pipe, a backtick, a
double ampersand, or any whitespace character (in particular whitespace
separating extra tokens) is rejected by validation and neither variant spawns
a process, while the valid domain 8.8.8.8 is accepted, its lookup is executed
through the argument vector, and on a zero return code its stdout is the
returned output. -/
theorem C3_theorem (proc : String → ProcResult) (shellRun : String → String) (s : String)
    (hbad : ';' ∈ s.toList ∨ '|' ∈ s.toList ∨ '`' ∈ s.toList
      ∨ strContains s "&&" = true ∨ ∃ c ∈ s.toList, pyIsSpaceChar c = true) :
    validateDomain s = false
    ∧ (solutionIndexPost proc s).spawned = []
    ∧ (viewsIndexPost shellRun s).spawned = []
    ∧ validateDomain "8.8.8.8" = true
    ∧ (solutionIndexPost proc "8.8.8.8").spawned = [ProcInvocation.argv ["nslookup", "8.8.8.8"]]
    ∧ ((proc "8.8.8.8").returncode = 0 →
        (solutionIndexPost proc "8.8.8.8").render.output = some (proc "8.8.8.8").stdout) := by
  have hbadc : ∃ c ∈ s.toList, domainChar c = false := by
    rcases hbad with h | h | h | h | ⟨c, hc, hsp⟩
    · exact ⟨';', h, by decide⟩
    · exact ⟨'|', h, by decide⟩
    · exact ⟨'`', h, by decide⟩
    · exact ⟨'&', strContains_mem h (by decide), by decide⟩
    · exact ⟨c, hc, pySpace_not_domainChar hsp⟩
  obtain ⟨c, hc, hdc⟩ := hbadc
  have hrej := validateDomain_false_of_badchar hc hdc
  have h88 : validateDomain "8.8.8.8" = true := by decide
  refine ⟨hrej, ?_, ?_, h88, ?_, ?_⟩
  · simp [solutionIndexPost, hrej]
  · simp [viewsIndexPost, hrej]
  · simp [solutionIndexPost, h88]
  · intro h0
    simp [solutionIndexPost, h88, h0]

/-- C3 witness: the two end-to-end inputs of the spec, with a process
environment whose lookup succeeds. -/
theorem C3_theorem_witness :
    validateDomain "8.8.8.8; rm -rf /" = false
    ∧ (solutionIndexPost (fun _ => { stdout := "addr", returncode := 0 }) "8.8.8.8; rm -rf /").spawned = []
    ∧ (viewsIndexPost (fun _ => "addr") "8.8.8.8; rm -rf /").spawned = []
    ∧ validateDomain "8.8.8.8" = true
    ∧ (solutionIndexPost (fun _ => { stdout := "addr", returncode := 0 }) "8.8.8.8").spawned
      = [ProcInvocation.argv ["nslookup", "8.8.8.8"]]
    ∧ (({ stdout := "addr", returncode := 0 } : ProcResult).returncode = 0 →
        (solutionIndexPost (fun _ => { stdout := "addr", returncode := 0 }) "8.8.8.8").render.output
          = some ({ stdout := "addr", returncode := 0 } : ProcResult).stdout) :=
  C3_theorem (fun _ => { stdout := "addr", returncode := 0 }) (fun _ => "addr")
    "8.8.8.8; rm -rf /" (Or.inl (by decide))

/-- C4: for every XML payload containing a DOCTYPE or an ENTITY declaration,
the parser is configured with all three defusedxml protections before any
parse attempt, the payload is rejected with zero entity expansions performed
and no storage query issued, and the response is a 400 JSON error. -/
theorem C4_theorem (db : List Photo) (doc : XmlPayload)
    (h : doc.hasDoctype = true ∨ doc.hasEntityDecl = true) :
    xmlParserConfig.forbid_dtd = true
    ∧ xmlParserConfig.forbid_entities = true
    ∧ xmlParserConfig.forbid_external = true
    ∧ (xmlSearchPost db doc).expansions = 0
    ∧ (xmlSearchPost db doc).queries = []
    ∧ ∃ m, (xmlSearchPost db doc).outcome
        = HandlerOutcome.resp { status := 400, body := JsonBody.error m } := by
  have hparse : ∃ m, defusedParse xmlParserConfig doc = (Except.error (PyExc.valueError m), 0) := by
    rcases h with h | h
    · exact ⟨"DTDForbidden", by simp [defusedParse, xmlParserConfig, h]⟩
    · cases hd : doc.hasDoctype
      · exact ⟨"EntitiesForbidden", by simp [defusedParse, xmlParserConfig, h, hd]⟩
      · exact ⟨"DTDForbidden", by simp [defusedParse, xmlParserConfig, hd]⟩
  obtain ⟨m, hm⟩ := hparse
  refine ⟨rfl, rfl, rfl, ?_, ?_, ⟨"XML parse - " ++ m, ?_⟩⟩ <;> simp [xmlSearchPost, hm]

/-- C4 witness: a payload with a DOCTYPE and an ENTITY declaration. -/
theorem C4_theorem_witness :
    xmlParserConfig.forbid_dtd = true
    ∧ xmlParserConfig.forbid_entities = true
    ∧ xmlParserConfig.forbid_external = true
    ∧ (xmlSearchPost [] xxeDoc).expansions = 0
    ∧ (xmlSearchPost [] xxeDoc).queries = []
    ∧ ∃ m, (xmlSearchPost [] xxeDoc).outcome
        = HandlerOutcome.resp { status := 400, body := JsonBody.error m } :=
  C4_theorem [] xxeDoc (Or.inl rfl)

/-- C5 counterexample: a YAML mapping whose query value is the integer five
is parsed successfully by safe_load, yet the value the handler consumes is
neither a plain string nor a rejection: the handler escapes with an uncaught
AttributeError when isspace is called on it. -/
theorem C5_counterexample :
    safe_load (YamlPayload.plain (YamlVal.map [("query", YamlVal.int 5)]))
      = Except.ok (YamlVal.map [("query", YamlVal.int 5)])
    ∧ (yamlSearchPost [] (YamlPayload.plain (YamlVal.map [("query", YamlVal.int 5)]))).outcome
      = HandlerOutcome.uncaught (PyExc.attributeError "object has no attribute isspace")
    ∧ (yamlSearchPost [] (YamlPayload.plain (YamlVal.map [("query", YamlVal.int 5)]))).outcome.isJsonResp
      = false :=
  ⟨rfl, rfl, rfl⟩

/-- C5 amended: parsing uses safe_load, which refuses to construct arbitrary
object types: a payload carrying a type-constructor tag is rejected with a
constructor error, its embedded content is never executed and no storage
query is issued for it; and whenever the query value of a mapping payload is
a plain string, the handler consumes exactly that string, returning the
photos response; a truthy non-string query value, however, escapes as an
uncaught AttributeError instead of yielding a plain-string result. -/
theorem C5_theorem (db : List Photo) (tag : String) (v : YamlVal)
    (m : List (String × YamlVal)) (s : String)
    (hq : yamlLookup m "query" = some (YamlVal.str s)) :
    (∃ msg, safe_load (YamlPayload.tagged tag v) = Except.error (PyExc.yamlError msg))
    ∧ (yamlSearchPost db (YamlPayload.tagged tag v)).queries = []
    ∧ (yamlSearchPost db (YamlPayload.plain (YamlVal.map m))).outcome
      = HandlerOutcome.resp
          { status := 200,
            body := JsonBody.photos
                      (if !s.isEmpty && !pyIsspace s then photoSearchResults db s else []) } := by
  refine ⟨⟨_, rfl⟩, by simp [yamlSearchPost, safe_load], ?_⟩
  simp only [yamlSearchPost, safe_load, yamlGet, hq, yamlTruthy]
  cases he : s.isEmpty
  · cases hsp : pyIsspace s
    · simp [he, hsp]
    · simp [he, hsp]
  · simp [he]

/-- C5 witness: a tagged payload that would run a system command, and a
mapping payload whose query is the string cat. -/
theorem C5_theorem_witness :
    (∃ msg, safe_load (YamlPayload.tagged "tag:yaml.org,2002:python/object/apply:os.system"
        (YamlVal.str "ls")) = Except.error (PyExc.yamlError msg))
    ∧ (yamlSearchPost [pubPhoto] (YamlPayload.tagged "tag:yaml.org,2002:python/object/apply:os.system"
        (YamlVal.str "ls"))).queries = []
    ∧ (yamlSearchPost [pubPhoto] (YamlPayload.plain (YamlVal.map [("query", YamlVal.str "cat")]))).outcome
      = HandlerOutcome.resp
          { status := 200,
            body := JsonBody.photos
                      (if !("cat" : String).isEmpty && !pyIsspace "cat" then photoSearchResults [pubPhoto] "cat" else []) } :=
  C5_theorem [pubPhoto] "tag:yaml.org,2002:python/object/apply:os.system" (YamlVal.str "ls")
    [("query", YamlVal.str "cat")] "cat" rfl

/-- C6: whenever validation or parsing rejects the input, the handler returns
a user-facing rejection, the re-rendered form carrying its errors for the
domain view and a 400 JSON error for the XML endpoint, and no command and no
storage query is issued after the rejection is detected; validation is the
single pure check validateDomain. -/
theorem C6_theorem (proc : String → ProcResult) (s : String) (db : List Photo)
    (doc : XmlPayload) (e : PyExc)
    (hdom : validateDomain s = false)
    (hrej : (defusedParse xmlParserConfig doc).1 = Except.error e) :
    (solutionIndexPost proc s).spawned = []
    ∧ (solutionIndexPost proc s).render.formValid = false
    ∧ (solutionIndexPost proc s).render.output = none
    ∧ (xmlSearchPost db doc).queries = []
    ∧ ∃ m, (xmlSearchPost db doc).outcome
        = HandlerOutcome.resp { status := 400, body := JsonBody.error m } := by
  rcases hd : defusedParse xmlParserConfig doc with ⟨res, n⟩
  rw [hd] at hrej
  simp only at hrej
  subst hrej
  refine ⟨?_, ?_, ?_, ?_, ?_⟩
  · simp [solutionIndexPost, hdom]
  · simp [solutionIndexPost, hdom]
  · simp [solutionIndexPost, hdom]
  · cases e <;> simp [xmlSearchPost, hd]
  · cases e with
    | valueError m => exact ⟨"XML parse - " ++ m, by simp [xmlSearchPost, hd]⟩
    | attributeError m => exact ⟨m, by simp [xmlSearchPost, hd, excMsg]⟩
    | yamlError m => exact ⟨m, by simp [xmlSearchPost, hd, excMsg]⟩

/-- C6 witness: a rejected domain and a rejected XML payload. -/
theorem C6_theorem_witness :
    (solutionIndexPost (fun _ => { stdout := "addr", returncode := 0 }) "bad;domain").spawned = []
    ∧ (solutionIndexPost (fun _ => { stdout := "addr", returncode := 0 }) "bad;domain").render.formValid = false
    ∧ (solutionIndexPost (fun _ => { stdout := "addr", returncode := 0 }) "bad;domain").render.output = none
    ∧ (xmlSearchPost [] xxeDoc).queries = []
    ∧ ∃ m, (xmlSearchPost [] xxeDoc).outcome
        = HandlerOutcome.resp { status := 400, body := JsonBody.error m } :=
  C6_theorem (fun _ => { stdout := "addr", returncode := 0 }) "bad;domain" [] xxeDoc
    (PyExc.valueError "DTDForbidden") (by decide) rfl

/-- C7 counterexample: a malformed YAML body makes the loader raise a
scanner error that the handler does not catch, so the endpoint produces no
JSON object of either shape. -/
theorem C7_counterexample :
    (yamlSearchPost [] YamlPayload.malformed).outcome
      = HandlerOutcome.uncaught (PyExc.yamlError "ScannerError")
    ∧ (yamlSearchPost [] YamlPayload.malformed).outcome.isJsonResp = false :=
  ⟨rfl, rfl⟩

/-- C7 amended: every POST to the XML endpoint returns a JSON object that is
either a 200 photos array or a 400 error object; the YAML endpoint satisfies
the same two-shape contract whenever it returns a response at all, while
malformed or constructor-tagged YAML and truthy non-string query values
escape the handler as uncaught exceptions. -/
theorem C7_theorem (db : List Photo) (doc : XmlPayload) (p : YamlPayload) :
    (∃ r, (xmlSearchPost db doc).outcome = HandlerOutcome.resp r
      ∧ ((∃ l, r = { status := 200, body := JsonBody.photos l })
        ∨ (∃ m, r = { status := 400, body := JsonBody.error m })))
    ∧ (∀ r, (yamlSearchPost db p).outcome = HandlerOutcome.resp r →
        ((∃ l, r = { status := 200, body := JsonBody.photos l })
          ∨ (∃ m, r = { status := 400, body := JsonBody.error m }))) := by
  constructor
  · unfold xmlSearchPost
    repeat' split
    all_goals first
      | exact ⟨_, rfl, Or.inl ⟨_, rfl⟩⟩
      | exact ⟨_, rfl, Or.inr ⟨_, rfl⟩⟩
  · intro r h
    unfold yamlSearchPost at h
    repeat' split at h
    all_goals first
      | exact HandlerOutcome.noConfusion h
      | (injection h with h2; subst h2;
         first
           | exact Or.inl ⟨_, rfl⟩
           | exact Or.inr ⟨_, rfl⟩)

/-- Helper: the photos array built by the API handlers lists at most 100
entries, each rendered from a public row of the table. -/
theorem photoSearchResults_ok (db : List Photo) (q : String) :
    (photoSearchResults db q).length ≤ 100
    ∧ ∀ pj ∈ photoSearchResults db q, ∃ ph ∈ db, ph.isPublic = true ∧ photoToJson ph = pj := by
  constructor
  · simp only [photoSearchResults, List.length_map, List.length_take]
    exact min_le_left _ _
  · intro pj hpj
    simp only [photoSearchResults, List.mem_map] at hpj
    obtain ⟨ph, hmem, heq⟩ := hpj
    have hdb := List.take_subset 100 _ hmem
    rw [List.mem_filter] at hdb
    refine ⟨ph, hdb.1, ?_, heq⟩
    have hconj := hdb.2
    rw [Bool.and_eq_true] at hconj
    exact hconj.2

/-- Helper: every response body of the XML endpoint is sound for the table. -/
theorem xmlSearchPost_bodyOk (db : List Photo) (doc : XmlPayload) (r : JsonResp)
    (h : (xmlSearchPost db doc).outcome = HandlerOutcome.resp r) :
    photosBodyOk db r.body := by
  unfold xmlSearchPost at h
  repeat' split at h
  all_goals injection h with h2
  all_goals subst h2
  all_goals first
    | trivial
    | exact photoSearchResults_ok db _
    | exact ⟨by simp, by simp⟩

/-- Helper: every response body of the YAML endpoint is sound for the table. -/
theorem yamlSearchPost_bodyOk (db : List Photo) (p : YamlPayload) (r : JsonResp)
    (h : (yamlSearchPost db p).outcome = HandlerOutcome.resp r) :
    photosBodyOk db r.body := by
  unfold yamlSearchPost at h
  repeat' split at h
  all_goals first
    | exact HandlerOutcome.noConfusion h
    | (injection h with h2; subst h2;
       first
         | trivial
         | exact photoSearchResults_ok db _
         | exact ⟨by simp, by simp⟩)

/-- C9: every photo listed by the XML search endpoint or the YAML search
endpoint is rendered from a public row of the table, and each photos array
holds at most 100 entries. -/
theorem C9_theorem (db : List Photo) (doc : XmlPayload) (p : YamlPayload)
    (r1 r2 : JsonResp) (l1 l2 : List PhotoJson)
    (h1 : (xmlSearchPost db doc).outcome = HandlerOutcome.resp r1)
    (hb1 : r1.body = JsonBody.photos l1)
    (h2 : (yamlSearchPost db p).outcome = HandlerOutcome.resp r2)
    (hb2 : r2.body = JsonBody.photos l2) :
    (l1.length ≤ 100 ∧ ∀ pj ∈ l1, ∃ ph ∈ db, ph.isPublic = true ∧ photoToJson ph = pj)
    ∧ (l2.length ≤ 100 ∧ ∀ pj ∈ l2, ∃ ph ∈ db, ph.isPublic = true ∧ photoToJson ph = pj) := by
  have hx := xmlSearchPost_bodyOk db doc r1 h1
  have hy := yamlSearchPost_bodyOk db p r2 h2
  rw [hb1] at hx
  rw [hb2] at hy
  exact ⟨hx, hy⟩

/-- C9 witness: both endpoints queried with cat over a two-row table holding
one public and one non-public photo. -/
theorem C9_theorem_witness :
    ((photoSearchResults demoDb "cat").length ≤ 100
      ∧ ∀ pj ∈ photoSearchResults demoDb "cat",
          ∃ ph ∈ demoDb, ph.isPublic = true ∧ photoToJson ph = pj)
    ∧ ((photoSearchResults demoDb "cat").length ≤ 100
      ∧ ∀ pj ∈ photoSearchResults demoDb "cat",
          ∃ ph ∈ demoDb, ph.isPublic = true ∧ photoToJson ph = pj) :=
  C9_theorem demoDb plainXmlDoc plainYamlDoc
    { status := 200, body := JsonBody.photos (photoSearchResults demoDb "cat") }
    { status := 200, body := JsonBody.photos (photoSearchResults demoDb "cat") }
    (photoSearchResults demoDb "cat") (photoSearchResults demoDb "cat")
    rfl rfl rfl rfl

/-- Helper: a string that is empty or all whitespace fails the usability
test of the handlers. -/
theorem blank_some {s : String} (h : s = "" ∨ pyIsspace s = true) :
    (!s.isEmpty && !pyIsspace s) = false := by
  rcases h with h | h
  · subst h; decide
  · rw [h]; simp

/-- C10: a search request whose query is absent, empty, or all whitespace
returns an empty photo list and issues no storage query at all, in the plain
search view, the XML search endpoint and the YAML search endpoint. -/
theorem C10_theorem (db : List Photo) (q : Option String) (doc : XmlPayload)
    (m : List (String × YamlVal))
    (hq : blankQuery q)
    (hdoc : doc.hasDoctype = false ∧ doc.hasEntityDecl = false
      ∧ doc.hasExternalRef = false ∧ doc.wellFormed = true
      ∧ doc.hasQueryElem = true ∧ blankQuery doc.queryText)
    (hy : yamlLookup m "query" = none
      ∨ ∃ s, yamlLookup m "query" = some (YamlVal.str s) ∧ (s = "" ∨ pyIsspace s = true)) :
    searchPhotosRequest q = none
    ∧ searchPhotosView db q = some []
    ∧ (xmlSearchPost db doc).queries = []
    ∧ (xmlSearchPost db doc).outcome
      = HandlerOutcome.resp { status := 200, body := JsonBody.photos [] }
    ∧ (yamlSearchPost db (YamlPayload.plain (YamlVal.map m))).queries = []
    ∧ (yamlSearchPost db (YamlPayload.plain (YamlVal.map m))).outcome
      = HandlerOutcome.resp { status := 200, body := JsonBody.photos [] } := by
  obtain ⟨hd1, hd2, hd3, hd4, hd5, hd6⟩ := hdoc
  have hreq : searchPhotosRequest q = none := by
    rcases hq with h | h | ⟨s, hqs, hsp⟩
    · rw [h]; rfl
    · rw [h]; simp [searchPhotosRequest, blank_some (Or.inl rfl)]
    · rw [hqs]; simp [searchPhotosRequest, blank_some (Or.inr hsp)]
  have hparse : defusedParse xmlParserConfig doc = (Except.ok doc, doc.entityUses) := by
    simp [defusedParse, xmlParserConfig, hd1, hd2, hd3, hd4]
  have hxml : xmlSearchPost db doc
      = { outcome := HandlerOutcome.resp { status := 200, body := JsonBody.photos [] },
          expansions := doc.entityUses, queries := [] } := by
    rcases hd6 with h | h | ⟨s, hqs, hsp⟩
    · simp [xmlSearchPost, hparse, hd5, h]
    · simp [xmlSearchPost, hparse, hd5, h, blank_some (Or.inl rfl)]
    · simp [xmlSearchPost, hparse, hd5, hqs, blank_some (Or.inr hsp), hsp]
  have hyaml : yamlSearchPost db (YamlPayload.plain (YamlVal.map m))
      = { outcome := HandlerOutcome.resp { status := 200, body := JsonBody.photos [] },
          expansions := 0, queries := [] } := by
    rcases hy with h | ⟨s, hqs, hsp⟩
    · simp [yamlSearchPost, safe_load, yamlGet, h]
    · rcases hsp with he | hws
      · subst he
        simp [yamlSearchPost, safe_load, yamlGet, hqs, yamlTruthy]
        decide
      · simp [yamlSearchPost, safe_load, yamlGet, hqs, yamlTruthy, hws]
  refine ⟨hreq, ?_, ?_, ?_, ?_, ?_⟩
  · simp [searchPhotosView, hreq]
  · rw [hxml]
  · rw [hxml]
  · rw [hyaml]
  · rw [hyaml]

/-- C10 witness: a query of one space character at all three entry points. -/
theorem C10_theorem_witness :
    searchPhotosRequest (some " ") = none
    ∧ searchPhotosView demoDb (some " ") = some []
    ∧ (xmlSearchPost demoDb blankXmlDoc).queries = []
    ∧ (xmlSearchPost demoDb blankXmlDoc).outcome
      = HandlerOutcome.resp { status := 200, body := JsonBody.photos [] }
    ∧ (yamlSearchPost demoDb (YamlPayload.plain (YamlVal.map [("query", YamlVal.str " ")]))).queries = []
    ∧ (yamlSearchPost demoDb (YamlPayload.plain (YamlVal.map [("query", YamlVal.str " ")]))).outcome
      = HandlerOutcome.resp { status := 200, body := JsonBody.photos [] } :=
  C10_theorem demoDb (some " ") blankXmlDoc [("query", YamlVal.str " ")]
    (Or.inr (Or.inr ⟨" ", rfl, rfl⟩))
    ⟨rfl, rfl, rfl, rfl, rfl, Or.inr (Or.inr ⟨" ", rfl, rfl⟩)⟩
    (Or.inr ⟨" ", rfl, Or.inr rfl⟩)

end SecureCoding
